import Mathlib

set_option autoImplicit false

/-!
Shallow embedding of the aumai-toolemu response-selection and
call-recording engine (`src/aumai_toolemu/core.py` and
`src/aumai_toolemu/models.py`).

Python dictionaries are modelled as association lists with unique keys,
with `lookupKey` for `dict.get` and `insertKey` for `dict[k] = v`
(overwriting in place, appending fresh keys at the end, which matches
CPython's insertion-order semantics).  Payload values (`object` in the
source) are modelled by the inductive `Value`, whose `vnull` constructor
stands for Python's `None`; this matters because `dict.get(k)` returns
`None` on a missing key before the `==` comparison in
`_match_conditional`.  `random.random()` and `random.choice` are
modelled by an explicit random source `Rng` passed into `call`; the
timestamp `datetime.now` is modelled by an explicit `now` argument.
`time.sleep` has no observable effect on the emulator state and is
therefore not part of the state transition.
-/

namespace AumaiToolemu

/-- A JSON-style payload value; `vnull` is Python's `None`. -/
inductive Value where
  | vnull : Value
  | vbool : Bool → Value
  | vint : Int → Value
  | vstr : String → Value
deriving DecidableEq

/-- A `dict[str, object]` payload, as an association list with unique keys. -/
abbrev Payload := List (String × Value)

/-- `d.get(key)`: the value stored under `key`, if any. -/
def lookupKey {α : Type} : List (String × α) → String → Option α
  | [], _ => none
  | (k, v) :: rest, key => if k = key then some v else lookupKey rest key

/-- `d[key] = v`: overwrite in place if the key exists, else append. -/
def insertKey {α : Type} : List (String × α) → String → α → List (String × α)
  | [], key, v => [(key, v)]
  | (k, v0) :: rest, key, v =>
    if k = key then (key, v) :: rest else (k, v0) :: insertKey rest key v

/-- `MockResponse` (models.py): one canned response. -/
structure MockResponse where
  status_code : Nat := 200
  body : Payload := []
  latency_ms : Rat := 0
  headers : List (String × String) := []
deriving DecidableEq

/-- `MockBehavior` (models.py): the closed selection-policy enumeration. -/
inductive MockBehavior where
  | static
  | sequential
  | random
  | error
  | conditional
deriving DecidableEq

/-- `ToolMock` (models.py): configuration for a single mocked tool. -/
structure ToolMock where
  tool_name : String
  behavior : MockBehavior := .static
  responses : List MockResponse := []
  error_rate : Rat := 0
  conditions : Option Payload := none
deriving DecidableEq

/-- `EmulatorConfig` (models.py): top-level configuration. -/
structure EmulatorConfig where
  mocks : List ToolMock := []
  default_latency_ms : Rat := 0
  record_calls : Bool := true
deriving DecidableEq

/-- `RecordedCall` (models.py): one logged invocation. -/
structure RecordedCall where
  tool_name : String
  input_data : Payload
  response : MockResponse
  timestamp : Nat
deriving DecidableEq

/-- The random source consumed by one `call`: `draw` models the
`random.random()` result in `[0,1)` used for fault injection, `choice`
models the index picked by `random.choice` (taken modulo pool length). -/
structure Rng where
  draw : Rat := 0
  choice : Nat := 0
deriving DecidableEq

/-- `ToolNotFoundError` (core.py), carrying the unknown tool name. -/
inductive EmuError where
  | toolNotFound : String → EmuError
deriving DecidableEq

/-- The mutable state of a `ToolEmulator` instance (core.py `__init__`):
the config, the mock registry `_mocks`, the per-tool sequential cursor
map `_sequence_positions` and the call log `_recorded_calls`. -/
structure EmulatorState where
  config : EmulatorConfig
  mocks : List (String × ToolMock)
  sequence_positions : List (String × Nat)
  recorded_calls : List RecordedCall
deriving DecidableEq

/-- `MockResponse(status_code=200, body={})`: the empty-pool fallback. -/
def defaultResponse : MockResponse :=
  { status_code := 200, body := [] }

/-- The synthetic response produced by the fault-injection branch. -/
def injectedErrorResponse (tool_name : String) : MockResponse :=
  { status_code := 500
    body := [("error", .vstr "injected_error"), ("tool", .vstr tool_name)] }

/-- The synthetic response produced by the `error` policy. -/
def toolErrorResponse (tool_name : String) : MockResponse :=
  { status_code := 500
    body := [("error", .vstr "tool_error"), ("tool", .vstr tool_name)] }

/-- `ToolEmulator.__init__`: builds `_mocks` from `config.mocks` as the
dict comprehension does, left to right, so later duplicates overwrite
earlier ones; the cursor map and the call log start empty. -/
def ToolEmulator.init (config : EmulatorConfig) : EmulatorState :=
  { config := config
    mocks := config.mocks.foldl (fun acc m => insertKey acc m.tool_name m) []
    sequence_positions := []
    recorded_calls := [] }

/-- The `all(input_data.get(k) == v for k, v in mock.conditions.items())`
check of `_match_conditional`: a missing key yields `None` (`vnull`)
before the equality comparison. -/
def condsMatch (conditions : Payload) (input_data : Payload) : Bool :=
  conditions.all fun kv => ((lookupKey input_data kv.1).getD Value.vnull) == kv.2

/-- The `for response in mock.responses: if matched: return response`
loop of `_match_conditional`; `matched` does not depend on the loop
variable in the source, so it is a parameter here. -/
def firstMatched (matched : Bool) : List MockResponse → Option MockResponse
  | [] => none
  | response :: rest => if matched then some response else firstMatched matched rest

/-- `ToolEmulator._match_conditional` (core.py lines 135-153). -/
def matchConditional (mock : ToolMock) (input_data : Payload) : MockResponse :=
  match mock.conditions with
  | none => mock.responses.headD defaultResponse
  | some conditions =>
    if mock.responses.isEmpty then defaultResponse
    else
      match firstMatched (condsMatch conditions input_data) mock.responses with
      | some response => response
      | none => (mock.responses.getLast?).getD defaultResponse

/-- The fault-injection guard of `_select_response` (core.py line 102):
`mock.error_rate > 0 and random.random() < mock.error_rate`. -/
def faultInjected (mock : ToolMock) (rng : Rng) : Prop :=
  mock.error_rate > 0 ∧ rng.draw < mock.error_rate

/-- `ToolEmulator._select_response` (core.py lines 97-133): returns the
chosen response together with the updated cursor map (the only state the
selection mutates). -/
def selectResponse (st : EmulatorState) (mock : ToolMock) (input_data : Payload)
    (rng : Rng) : MockResponse × List (String × Nat) :=
  if mock.error_rate > 0 ∧ rng.draw < mock.error_rate then
    (injectedErrorResponse mock.tool_name, st.sequence_positions)
  else if mock.behavior = .error then
    (toolErrorResponse mock.tool_name, st.sequence_positions)
  else if mock.responses.isEmpty then
    (defaultResponse, st.sequence_positions)
  else if mock.behavior = .static then
    (mock.responses.headD defaultResponse, st.sequence_positions)
  else if mock.behavior = .sequential then
    let pos := (lookupKey st.sequence_positions mock.tool_name).getD 0
    (mock.responses.getD (pos % mock.responses.length) defaultResponse,
      insertKey st.sequence_positions mock.tool_name (pos + 1))
  else if mock.behavior = .random then
    (mock.responses.getD (rng.choice % mock.responses.length) defaultResponse,
      st.sequence_positions)
  else if mock.behavior = .conditional then
    (matchConditional mock input_data, st.sequence_positions)
  else
    (mock.responses.headD defaultResponse, st.sequence_positions)

/-- `ToolEmulator.call` (core.py lines 42-78).  The `time.sleep` latency
simulation changes no emulator state and is omitted from the transition;
recording happens only when `record_calls` is set. -/
def call (st : EmulatorState) (tool_name : String) (input_data : Payload)
    (rng : Rng) (now : Nat) : Except EmuError (MockResponse × EmulatorState) :=
  match lookupKey st.mocks tool_name with
  | none => .error (.toolNotFound tool_name)
  | some mock =>
    let sel := selectResponse st mock input_data rng
    let st1 : EmulatorState := { st with sequence_positions := sel.2 }
    let st2 : EmulatorState :=
      if st1.config.record_calls then
        { st1 with recorded_calls := st1.recorded_calls ++
            [{ tool_name := tool_name, input_data := input_data,
               response := sel.1, timestamp := now }] }
      else st1
    .ok (sel.1, st2)

/-- The response component of `call`, `none` when the call raises. -/
def callResponse (st : EmulatorState) (tool_name : String) (input_data : Payload)
    (rng : Rng) (now : Nat) : Option MockResponse :=
  match call st tool_name input_data rng now with
  | .error _ => none
  | .ok res => some res.1

/-- The state after one `call`; a raising call leaves the state as it was. -/
def stepCall (st : EmulatorState) (tool_name : String) (input_data : Payload)
    (rng : Rng) (now : Nat) : EmulatorState :=
  match call st tool_name input_data rng now with
  | .error _ => st
  | .ok res => res.2

/-- The state after `n` identical calls. -/
def iterCalls (st : EmulatorState) (tool_name : String) (input_data : Payload)
    (rng : Rng) (now : Nat) : Nat → EmulatorState
  | 0 => st
  | n + 1 => stepCall (iterCalls st tool_name input_data rng now n) tool_name input_data rng now

/-- `ToolEmulator.get_recorded_calls` (core.py lines 80-82).  The source
returns `list(self._recorded_calls)`, a fresh list decoupled from the
internal one; in this pure model the returned value is by construction
independent of any later state. -/
def get_recorded_calls (st : EmulatorState) : List RecordedCall :=
  st.recorded_calls

/-- `ToolEmulator.reset` (core.py lines 84-87). -/
def reset (st : EmulatorState) : EmulatorState :=
  { st with recorded_calls := [], sequence_positions := [] }

/-- `ToolEmulator.add_mock` (core.py lines 89-91). -/
def add_mock (st : EmulatorState) (mock : ToolMock) : EmulatorState :=
  { st with mocks := insertKey st.mocks mock.tool_name mock }

/-- Specification-side reading of a conditional match: every required
key/value pair is satisfied by the input, a missing key counting as the
null value (which is what `dict.get` feeds into `==`). -/
def specCondsMatch (conditions : Payload) (input_data : Payload) : Prop :=
  ∀ kv ∈ conditions, (lookupKey input_data kv.1).getD Value.vnull = kv.2

/-- Specification-side characterisation of the registry built from a
config: the last mock in the list carrying the given name, if any. -/
def lastRegistered (mocks : List ToolMock) (name : String) : Option ToolMock :=
  match mocks with
  | [] => none
  | m :: rest =>
    match lastRegistered rest name with
    | some x => some x
    | none => if m.tool_name = name then some m else none

/-- A fixed random source for concrete test states. -/
def rng0 : Rng := { draw := 0, choice := 0 }

/-- First canned response of the concrete conditional fixtures. -/
def rA : MockResponse := { status_code := 200, body := [("i", .vint 0)] }

/-- Second canned response of the concrete conditional fixtures. -/
def rB : MockResponse := { status_code := 200, body := [("i", .vint 1)] }

/-- A conditional mock whose `conditions` mapping is present but empty. -/
def condMockEmpty : ToolMock :=
  { tool_name := "t", behavior := .conditional, responses := [rA, rB],
    error_rate := 0, conditions := some [] }

/-- Emulator holding only `condMockEmpty`. -/
def stEmptyConds : EmulatorState := ToolEmulator.init { mocks := [condMockEmpty] }

/-- A conditional mock with a single null-valued condition. -/
def condMockNull : ToolMock :=
  { tool_name := "u", behavior := .conditional, responses := [rA, rB],
    error_rate := 0, conditions := some [("k", .vnull)] }

/-- Emulator holding only `condMockNull`. -/
def stCondNull : EmulatorState := ToolEmulator.init { mocks := [condMockNull] }

/-- A sequential mock with a two-element pool. -/
def seqMock : ToolMock :=
  { tool_name := "s", behavior := .sequential, responses := [rA, rB], error_rate := 0 }

/-- Emulator holding only `seqMock`. -/
def stSeq : EmulatorState := ToolEmulator.init { mocks := [seqMock] }

/-- A static mock with `error_rate = 1`. -/
def errMock1 : ToolMock :=
  { tool_name := "f", behavior := .static, responses := [rA], error_rate := 1 }

/-- Emulator holding only `errMock1`. -/
def stErr1 : EmulatorState := ToolEmulator.init { mocks := [errMock1] }

/-- A plain static mock registered under "real". -/
def staticMockReal : ToolMock :=
  { tool_name := "real", behavior := .static, responses := [rA] }

/-- Emulator holding only `staticMockReal`; "ghost" is unregistered. -/
def stOne : EmulatorState := ToolEmulator.init { mocks := [staticMockReal] }

/-- An `error`-policy mock with an empty pool. -/
def errPolicyMock : ToolMock := { tool_name := "ep", behavior := .error }

/-- A static mock with an empty pool. -/
def emptyPoolMock : ToolMock := { tool_name := "np", behavior := .static }

/-- Emulator holding `errPolicyMock` and `emptyPoolMock`. -/
def stPriority : EmulatorState :=
  ToolEmulator.init { mocks := [errPolicyMock, emptyPoolMock] }

/-- Emulator holding `staticMockReal` with call recording disabled. -/
def stRecOff : EmulatorState :=
  ToolEmulator.init { mocks := [staticMockReal], record_calls := false }

/-- First of two mocks sharing the name "d". -/
def mockD1 : ToolMock := { tool_name := "d", behavior := .static, responses := [rA] }

/-- Second of two mocks sharing the name "d". -/
def mockD2 : ToolMock := { tool_name := "d", behavior := .static, responses := [rB] }

/-- A sequential mock with `error_rate = 1`, so every draw in `[0,1)`
takes the fault-injection branch. -/
def seqMockW : ToolMock :=
  { tool_name := "w", behavior := .sequential, responses := [rA, rB], error_rate := 1 }

/-- Emulator holding only `seqMockW`. -/
def stW : EmulatorState := ToolEmulator.init { mocks := [seqMockW] }


/-- Claim C4: with the random draw in `[0,1)`: a mock with `error_rate = 1`
makes every call return the injected 500 response regardless of behavior
and pool; a mock with `error_rate = 0` never takes the fault-injection
branch, and the selection is then independent of the draw. -/
theorem c4_error_rate_boundary
    (st : EmulatorState) (tool_name : String) (mock : ToolMock)
    (input_data : Payload) (rng : Rng) (now : Nat)
    (hm : lookupKey st.mocks tool_name = some mock) :
    (mock.error_rate = 1 → 0 ≤ rng.draw → rng.draw < 1 →
      callResponse st tool_name input_data rng now =
        some (injectedErrorResponse mock.tool_name) ∧
      (injectedErrorResponse mock.tool_name).status_code = 500) ∧
    (mock.error_rate = 0 →
      ¬ faultInjected mock rng ∧
      selectResponse st mock input_data rng =
        selectResponse st mock input_data { draw := 0, choice := rng.choice }) := by
  constructor
  · intro h1 _h0 hlt
    have hcond : mock.error_rate > 0 ∧ rng.draw < mock.error_rate := by
      rw [h1]; exact ⟨one_pos, hlt⟩
    refine ⟨?_, rfl⟩
    simp [callResponse, call, hm, selectResponse, hcond.1, hcond.2]
  · intro h0
    refine ⟨?_, ?_⟩
    · simp [faultInjected, h0]
    · simp [selectResponse, h0]

/-- Witness for C4: the fixture with `error_rate = 1` and draw 1/2 returns
the injected 500 response. -/
theorem c4_error_rate_boundary_witness :
    callResponse stErr1 "f" [] { draw := 1/2, choice := 0 } 0 =
      some (injectedErrorResponse errMock1.tool_name) :=
  ((c4_error_rate_boundary stErr1 "f" errMock1 [] { draw := 1/2, choice := 0 } 0
    rfl).1 rfl (by norm_num) (by norm_num)).1

/-- Claim C5: for a tool name with no registered mock, `call` raises
`ToolNotFoundError` and leaves the state (in particular the call log)
untouched; for every registered mock the call produces a response, so the
lookup failure is the only way `call` fails. -/
theorem c5_tool_not_found
    (st : EmulatorState) (tool_name : String) (input_data : Payload)
    (rng : Rng) (now : Nat) :
    (lookupKey st.mocks tool_name = none →
      call st tool_name input_data rng now = .error (.toolNotFound tool_name) ∧
      stepCall st tool_name input_data rng now = st) ∧
    (∀ mock, lookupKey st.mocks tool_name = some mock →
      ∃ r st2, call st tool_name input_data rng now = .ok (r, st2)) := by
  constructor
  · intro hnone
    constructor <;> simp [call, stepCall, hnone]
  · intro mock hm
    unfold call
    rw [hm]
    exact ⟨_, _, rfl⟩

/-- Witness for C5: calling the unregistered "ghost" raises and changes
nothing; calling the registered "real" succeeds. -/
theorem c5_tool_not_found_witness :
    call stOne "ghost" [] rng0 0 = .error (.toolNotFound "ghost") ∧
    stepCall stOne "ghost" [] rng0 0 = stOne ∧
    ∃ r st2, call stOne "real" [] rng0 0 = .ok (r, st2) :=
  ⟨((c5_tool_not_found stOne "ghost" [] rng0 0).1 rfl).1,
   ((c5_tool_not_found stOne "ghost" [] rng0 0).1 rfl).2,
   (c5_tool_not_found stOne "real" [] rng0 0).2 staticMockReal rfl⟩

/-- Claim C6: with `error_rate` 0, the `error` policy returns its
synthetic 500 even on an empty pool (the policy check precedes the
empty-pool check), while any other policy with an empty pool returns the
default response with status 200 and empty body. -/
theorem c6_priority_order
    (st : EmulatorState) (tool_name : String) (mock : ToolMock)
    (input_data : Payload) (rng : Rng) (now : Nat)
    (hm : lookupKey st.mocks tool_name = some mock)
    (he : mock.error_rate = 0) :
    (mock.behavior = .error →
      callResponse st tool_name input_data rng now =
        some (toolErrorResponse mock.tool_name) ∧
      (toolErrorResponse mock.tool_name).status_code = 500) ∧
    (mock.behavior ≠ .error → mock.responses = [] →
      callResponse st tool_name input_data rng now = some defaultResponse ∧
      defaultResponse.status_code = 200 ∧ defaultResponse.body = []) := by
  constructor
  · intro hb
    exact ⟨by simp [callResponse, call, hm, selectResponse, he, hb], rfl⟩
  · intro hb hr
    refine ⟨?_, rfl, rfl⟩
    simp [callResponse, call, hm, selectResponse, he, hb, hr]

/-- Witness for C6: the empty-pool `error`-policy mock yields the 500
tool-error response, the empty-pool static mock yields the 200 default. -/
theorem c6_priority_order_witness :
    callResponse stPriority "ep" [] rng0 0 =
      some (toolErrorResponse errPolicyMock.tool_name) ∧
    callResponse stPriority "np" [] rng0 0 = some defaultResponse :=
  ⟨((c6_priority_order stPriority "ep" errPolicyMock [] rng0 0 rfl rfl).1 rfl).1,
   ((c6_priority_order stPriority "np" emptyPoolMock [] rng0 0 rfl rfl).2
     (by decide) rfl).1⟩

end AumaiToolemu

namespace AumaiToolemu

theorem firstMatched_false (l : List MockResponse) : firstMatched false l = none := by
  induction l with
  | nil => rfl
  | cons r rs ih => simp [firstMatched, ih]

theorem lookupKey_insertKey_self {α : Type} (m : List (String × α)) (k : String) (v : α) :
    lookupKey (insertKey m k v) k = some v := by
  induction m with
  | nil => simp [insertKey, lookupKey]
  | cons hd tl ih =>
    obtain ⟨k0, v0⟩ := hd
    by_cases h : k0 = k
    · simp [insertKey, h, lookupKey]
    · simp [insertKey, h, lookupKey, ih]

theorem lookupKey_insertKey_other {α : Type} (m : List (String × α)) (k k' : String) (v : α)
    (h : k' ≠ k) :
    lookupKey (insertKey m k v) k' = lookupKey m k' := by
  induction m with
  | nil => simp [insertKey, lookupKey, Ne.symm h]
  | cons hd tl ih =>
    obtain ⟨k0, v0⟩ := hd
    by_cases h0 : k0 = k
    · subst h0
      simp [insertKey, lookupKey, Ne.symm h]
    · simp [insertKey, h0, lookupKey, ih]

theorem condsMatch_iff (cs input_data : Payload) :
    condsMatch cs input_data = true ↔ specCondsMatch cs input_data := by
  simp [condsMatch, specCondsMatch]

/-- Claim C1 counterexample: for the conditional mock with a present but
empty `conditions` mapping and pool `[rA, rB]`, `call` on the empty payload
returns the first element `rA`, not the last element `rB` that the claim
demands. -/
theorem c1_counterexample :
    callResponse stEmptyConds "t" [] rng0 0 = some rA ∧
    condMockEmpty.responses.getLast? = some rB ∧ rA ≠ rB :=
  ⟨by rfl, by rfl, by decide⟩

/-- Claim C1 (amended): for every conditional mock whose `conditions`
mapping is present but empty, whose response pool is non-empty, and whose
`error_rate` is 0, the conditional match succeeds vacuously (the empty
conjunction is true), so `call` returns the FIRST element of the response
pool, for every input payload. -/
theorem c1_empty_conditions_first
    (st : EmulatorState) (tool_name : String) (mock : ToolMock)
    (input_data : Payload) (rng : Rng) (now : Nat)
    (hm : lookupKey st.mocks tool_name = some mock)
    (hb : mock.behavior = .conditional)
    (hc : mock.conditions = some [])
    (hk : mock.responses ≠ [])
    (he : mock.error_rate = 0) :
    callResponse st tool_name input_data rng now =
      some (mock.responses.headD defaultResponse) := by
  cases hr : mock.responses with
  | nil => exact absurd hr hk
  | cons r rs =>
    simp [callResponse, call, hm, selectResponse, he, hb, matchConditional, hc, hr,
      condsMatch, firstMatched]

/-- Witness for C1: the amended theorem applied to the concrete fixture. -/
theorem c1_empty_conditions_first_witness :
    callResponse stEmptyConds "t" [] rng0 0 =
      some (condMockEmpty.responses.headD defaultResponse) :=
  c1_empty_conditions_first stEmptyConds "t" condMockEmpty [] rng0 0
    rfl rfl rfl (by decide) rfl

/-- Claim C2 counterexample: the conditional mock with conditions
`[("k", null)]` and the empty input payload: the required key "k" is
missing, so the claim demands the last element, but `dict.get` returns
`None`, which compares equal to the null condition value, so the code
matches and returns the first element. -/
theorem c2_counterexample :
    callResponse stCondNull "u" [] rng0 0 = some rA ∧
    condMockNull.responses.getLast? = some rB ∧ rA ≠ rB :=
  ⟨by rfl, by rfl, by decide⟩

/-- Claim C2 (amended): for every conditional mock with a present,
non-empty `conditions` mapping, a non-empty response pool and
`error_rate` 0: if every key/value pair of `conditions` is satisfied by
the input — where the input's value at a missing key counts as null, so a
null-valued condition is also satisfied by an absent key — then `call`
returns the first element of the pool; otherwise it returns the last
element; and the selection never raises. -/
theorem c2_conditional_selection
    (st : EmulatorState) (tool_name : String) (mock : ToolMock) (cs : Payload)
    (input_data : Payload) (rng : Rng) (now : Nat)
    (hm : lookupKey st.mocks tool_name = some mock)
    (hb : mock.behavior = .conditional)
    (hc : mock.conditions = some cs)
    (_hcs : cs ≠ [])
    (hk : mock.responses ≠ [])
    (he : mock.error_rate = 0) :
    (specCondsMatch cs input_data →
      callResponse st tool_name input_data rng now =
        some (mock.responses.headD defaultResponse)) ∧
    (¬ specCondsMatch cs input_data →
      callResponse st tool_name input_data rng now =
        some ((mock.responses.getLast?).getD defaultResponse)) := by
  cases hr : mock.responses with
  | nil => exact absurd hr hk
  | cons r rs =>
    constructor
    · intro hmatch
      have hct : condsMatch cs input_data = true := (condsMatch_iff cs input_data).mpr hmatch
      simp [callResponse, call, hm, selectResponse, he, hb, matchConditional, hc, hr,
        hct, firstMatched]
    · intro hmatch
      have hcf : condsMatch cs input_data = false := by
        cases hcb : condsMatch cs input_data
        · rfl
        · exact absurd ((condsMatch_iff cs input_data).mp hcb) hmatch
      simp [callResponse, call, hm, selectResponse, he, hb, matchConditional, hc, hr,
        hcf, firstMatched_false]

theorem seqCall_step
    (st : EmulatorState) (tool_name : String) (mock : ToolMock)
    (input_data : Payload) (rng : Rng) (now : Nat)
    (hm : lookupKey st.mocks tool_name = some mock)
    (hn : mock.tool_name = tool_name)
    (hb : mock.behavior = .sequential)
    (he : mock.error_rate = 0)
    (hk : mock.responses ≠ []) :
    callResponse st tool_name input_data rng now =
      some (mock.responses.getD
        (((lookupKey st.sequence_positions tool_name).getD 0) % mock.responses.length)
        defaultResponse) ∧
    (stepCall st tool_name input_data rng now).sequence_positions =
      insertKey st.sequence_positions tool_name
        (((lookupKey st.sequence_positions tool_name).getD 0) + 1) ∧
    (stepCall st tool_name input_data rng now).mocks = st.mocks ∧
    (stepCall st tool_name input_data rng now).config = st.config := by
  cases hr : mock.responses with
  | nil => exact absurd hr hk
  | cons r rs =>
    refine ⟨?_, ?_, ?_, ?_⟩ <;>
      simp [callResponse, stepCall, call, hm, selectResponse, he, hb, hn, hr] <;>
      split <;> simp

theorem seqIter_invariant
    (st0 : EmulatorState) (tool_name : String) (mock : ToolMock)
    (input_data : Payload) (rng : Rng) (now : Nat)
    (hm : lookupKey st0.mocks tool_name = some mock)
    (hn : mock.tool_name = tool_name)
    (hb : mock.behavior = .sequential)
    (he : mock.error_rate = 0)
    (hk : mock.responses ≠ []) :
    ∀ i : Nat,
      (iterCalls (reset st0) tool_name input_data rng now i).mocks = st0.mocks ∧
      ((lookupKey (iterCalls (reset st0) tool_name input_data rng now i).sequence_positions
        tool_name).getD 0 = i) ∧
      (i ≠ 0 →
        lookupKey (iterCalls (reset st0) tool_name input_data rng now i).sequence_positions
          tool_name = some i) := by
  intro i
  induction i with
  | zero => simp [iterCalls, reset, lookupKey]
  | succ n ih =>
    obtain ⟨ihm, ihp, _⟩ := ih
    have hm' : lookupKey (iterCalls (reset st0) tool_name input_data rng now n).mocks
        tool_name = some mock := by rw [ihm]; exact hm
    obtain ⟨_, hpos, hmocks, _⟩ :=
      seqCall_step (iterCalls (reset st0) tool_name input_data rng now n) tool_name mock
        input_data rng now hm' hn hb he hk
    have hlook : lookupKey
        (iterCalls (reset st0) tool_name input_data rng now (n + 1)).sequence_positions
        tool_name = some (n + 1) := by
      show lookupKey (stepCall (iterCalls (reset st0) tool_name input_data rng now n)
        tool_name input_data rng now).sequence_positions tool_name = some (n + 1)
      rw [hpos, ihp]
      exact lookupKey_insertKey_self _ _ _
    refine ⟨?_, ?_, fun _ => hlook⟩
    · show (stepCall (iterCalls (reset st0) tool_name input_data rng now n)
        tool_name input_data rng now).mocks = st0.mocks
      rw [hmocks, ihm]
    · rw [hlook]
      rfl

/-- Claim C3: for every sequential mock with non-empty pool and
`error_rate` 0, the `i`-th call (0-indexed) after a reset returns
`responses[i mod k]` and leaves the tool's cursor equal to `i + 1`; the
selection never raises. -/
theorem c3_sequential_round_robin
    (st0 : EmulatorState) (tool_name : String) (mock : ToolMock)
    (input_data : Payload) (rng : Rng) (now : Nat)
    (hm : lookupKey st0.mocks tool_name = some mock)
    (hn : mock.tool_name = tool_name)
    (hb : mock.behavior = .sequential)
    (he : mock.error_rate = 0)
    (hk : mock.responses ≠ [])
    (i : Nat) :
    callResponse (iterCalls (reset st0) tool_name input_data rng now i)
        tool_name input_data rng now =
      some (mock.responses.getD (i % mock.responses.length) defaultResponse) ∧
    lookupKey (iterCalls (reset st0) tool_name input_data rng now (i + 1)).sequence_positions
        tool_name = some (i + 1) := by
  obtain ⟨ihm, ihp, _⟩ :=
    seqIter_invariant st0 tool_name mock input_data rng now hm hn hb he hk i
  obtain ⟨_, _, hlook⟩ :=
    seqIter_invariant st0 tool_name mock input_data rng now hm hn hb he hk (i + 1)
  have hm' : lookupKey (iterCalls (reset st0) tool_name input_data rng now i).mocks
      tool_name = some mock := by rw [ihm]; exact hm
  obtain ⟨hresp, _, _, _⟩ :=
    seqCall_step (iterCalls (reset st0) tool_name input_data rng now i) tool_name mock
      input_data rng now hm' hn hb he hk
  rw [ihp] at hresp
  exact ⟨hresp, hlook (Nat.succ_ne_zero i)⟩

/-- Witness for C3: two calls past the pool length on the concrete
two-element sequential fixture: the second call (index 2) wraps to
`responses[0]` and leaves the cursor at 3. -/
theorem c3_sequential_round_robin_witness :
    callResponse (iterCalls (reset stSeq) "s" [] rng0 0 2) "s" [] rng0 0 =
      some (seqMock.responses.getD (2 % seqMock.responses.length) defaultResponse) ∧
    lookupKey (iterCalls (reset stSeq) "s" [] rng0 0 3).sequence_positions "s" = some 3 :=
  c3_sequential_round_robin stSeq "s" seqMock [] rng0 0 rfl rfl rfl rfl (by decide) 2

/-- Witness for C2: the amended theorem's non-matching branch applied to
the concrete fixture with input `[("k", true)]`, which fails the null
condition, selecting the last pool element. -/
theorem c2_conditional_selection_witness :
    callResponse stCondNull "u" [("k", Value.vbool true)] rng0 0 =
      some ((condMockNull.responses.getLast?).getD defaultResponse) :=
  (c2_conditional_selection stCondNull "u" condMockNull [("k", .vnull)]
    [("k", Value.vbool true)] rng0 0 rfl rfl rfl (by decide) (by decide) rfl).2
    (by unfold specCondsMatch; decide)


theorem lookupKey_foldl_insertKey (l : List ToolMock) (name : String)
    (acc : List (String × ToolMock)) :
    lookupKey (l.foldl (fun acc m => insertKey acc m.tool_name m) acc) name =
      match lastRegistered l name with
      | some m => some m
      | none => lookupKey acc name := by
  induction l generalizing acc with
  | nil => rfl
  | cons m l ih =>
    simp only [List.foldl_cons]
    rw [ih]
    have hins : lookupKey (insertKey acc m.tool_name m) name =
        if m.tool_name = name then some m else lookupKey acc name := by
      by_cases hn : m.tool_name = name
      · subst hn
        simp [lookupKey_insertKey_self]
      · simp [hn, lookupKey_insertKey_other acc m.tool_name name m (Ne.symm hn)]
    show _ = match lastRegistered (m :: l) name with
      | some x => some x
      | none => lookupKey acc name
    rw [show lastRegistered (m :: l) name =
        match lastRegistered l name with
        | some x => some x
        | none => if m.tool_name = name then some m else none from rfl]
    cases lastRegistered l name <;> by_cases hn : m.tool_name = name <;>
      simp [hins, hn, lookupKey_insertKey_self]

theorem selectResponse_cursor_cases (st : EmulatorState) (mock : ToolMock)
    (input_data : Payload) (rng : Rng) :
    (selectResponse st mock input_data rng).2 = st.sequence_positions ∨
    (selectResponse st mock input_data rng).2 =
      insertKey st.sequence_positions mock.tool_name
        (((lookupKey st.sequence_positions mock.tool_name).getD 0) + 1) := by
  unfold selectResponse
  split
  · exact Or.inl rfl
  split
  · exact Or.inl rfl
  split
  · exact Or.inl rfl
  split
  · exact Or.inl rfl
  split
  · exact Or.inr rfl
  split
  · exact Or.inl rfl
  split
  · exact Or.inl rfl
  exact Or.inl rfl

theorem selectResponse_injected (st : EmulatorState) (mock : ToolMock)
    (input_data : Payload) (rng : Rng) (h : faultInjected mock rng) :
    selectResponse st mock input_data rng =
      (injectedErrorResponse mock.tool_name, st.sequence_positions) := by
  unfold selectResponse
  exact if_pos h

/-- Claim C7: with `record_calls` disabled no RecordedCall is ever
appended; with it enabled, exactly one RecordedCall is appended at the end
of the log per successful call, capturing the tool name, the input payload
and the exact returned response; `get_recorded_calls` returns exactly the
current log (the source returns it as a fresh `list(...)` copy, so the
caller's value has no link back to internal storage). -/
theorem c7_recording
    (st : EmulatorState) (tool_name : String) (mock : ToolMock)
    (input_data : Payload) (rng : Rng) (now : Nat)
    (hm : lookupKey st.mocks tool_name = some mock) :
    (st.config.record_calls = false →
      (stepCall st tool_name input_data rng now).recorded_calls = st.recorded_calls) ∧
    (st.config.record_calls = true →
      ∃ r, callResponse st tool_name input_data rng now = some r ∧
        (stepCall st tool_name input_data rng now).recorded_calls =
          st.recorded_calls ++
            [{ tool_name := tool_name, input_data := input_data,
               response := r, timestamp := now }]) ∧
    get_recorded_calls st = st.recorded_calls := by
  refine ⟨?_, ?_, rfl⟩
  · intro hrec
    simp [stepCall, call, hm, hrec]
  · intro hrec
    refine ⟨(selectResponse st mock input_data rng).1, ?_, ?_⟩ <;>
      simp [callResponse, stepCall, call, hm, hrec]

/-- Witness for C7: with recording off the log stays empty after a call;
with recording on the same call appends exactly its RecordedCall. -/
theorem c7_recording_witness :
    (stepCall stRecOff "real" [] rng0 0).recorded_calls = stRecOff.recorded_calls ∧
    (∃ r, callResponse stOne "real" [] rng0 0 = some r ∧
      (stepCall stOne "real" [] rng0 0).recorded_calls =
        stOne.recorded_calls ++
          [{ tool_name := "real", input_data := [], response := r, timestamp := 0 }]) :=
  ⟨(c7_recording stRecOff "real" staticMockReal [] rng0 0 rfl).1 rfl,
   (c7_recording stOne "real" staticMockReal [] rng0 0 rfl).2.1 rfl⟩

/-- Claim C8: `reset` empties the call log and the cursor map and leaves
the registry and the config untouched; the next sequential call after a
reset returns `responses[0]`, exactly as on a freshly constructed
emulator holding the same mock. -/
theorem c8_reset
    (st : EmulatorState) (tool_name : String) (mock : ToolMock)
    (input_data : Payload) (rng : Rng) (now : Nat) (cfg : EmulatorConfig)
    (hm : lookupKey st.mocks tool_name = some mock)
    (hn : mock.tool_name = tool_name)
    (hb : mock.behavior = .sequential)
    (he : mock.error_rate = 0)
    (hk : mock.responses ≠ []) :
    (reset st).recorded_calls = [] ∧
    (reset st).sequence_positions = [] ∧
    (reset st).mocks = st.mocks ∧
    (reset st).config = st.config ∧
    callResponse (reset st) tool_name input_data rng now =
      some (mock.responses.getD 0 defaultResponse) ∧
    (lookupKey (ToolEmulator.init cfg).mocks tool_name = some mock →
      callResponse (ToolEmulator.init cfg) tool_name input_data rng now =
        some (mock.responses.getD 0 defaultResponse)) := by
  have hres : ∀ st1 : EmulatorState, st1.sequence_positions = [] →
      lookupKey st1.mocks tool_name = some mock →
      callResponse st1 tool_name input_data rng now =
        some (mock.responses.getD 0 defaultResponse) := by
    intro st1 hp hm1
    obtain ⟨h1, _, _, _⟩ :=
      seqCall_step st1 tool_name mock input_data rng now hm1 hn hb he hk
    rw [h1, hp]
    simp [lookupKey]
  exact ⟨rfl, rfl, rfl, rfl, hres (reset st) rfl hm, fun hm2 =>
    hres (ToolEmulator.init cfg) rfl hm2⟩

/-- Witness for C8: after one sequential call (cursor at 1), reset brings
the next call back to `responses[0]`. -/
theorem c8_reset_witness :
    callResponse (reset (stepCall stSeq "s" [] rng0 0)) "s" [] rng0 0 =
      some (seqMock.responses.getD 0 defaultResponse) :=
  (c8_reset (stepCall stSeq "s" [] rng0 0) "s" seqMock [] rng0 0
    { mocks := [seqMock] } (by decide) rfl rfl rfl (by decide)).2.2.2.2.1

/-- Claim C9: `add_mock` stores the mock under its `tool_name`,
overwriting any previous registration, leaves every other registry entry,
the cursor map, the call log and the config unchanged, and takes effect on
the very next call for that name; construction from a config resolves
duplicate names by letting the last registration win. -/
theorem c9_add_mock
    (st : EmulatorState) (mock : ToolMock) (other : String)
    (input_data : Payload) (rng : Rng) (now : Nat) (cfg : EmulatorConfig) :
    lookupKey (add_mock st mock).mocks mock.tool_name = some mock ∧
    (other ≠ mock.tool_name →
      lookupKey (add_mock st mock).mocks other = lookupKey st.mocks other) ∧
    (add_mock st mock).sequence_positions = st.sequence_positions ∧
    (add_mock st mock).recorded_calls = st.recorded_calls ∧
    (add_mock st mock).config = st.config ∧
    callResponse (add_mock st mock) mock.tool_name input_data rng now =
      some (selectResponse (add_mock st mock) mock input_data rng).1 ∧
    lookupKey (ToolEmulator.init cfg).mocks other = lastRegistered cfg.mocks other := by
  refine ⟨lookupKey_insertKey_self _ _ _,
    fun h => lookupKey_insertKey_other _ _ _ _ h, rfl, rfl, rfl, ?_, ?_⟩
  · simp [callResponse, call, add_mock, lookupKey_insertKey_self]
  · rw [show (ToolEmulator.init cfg).mocks =
        cfg.mocks.foldl (fun acc m => insertKey acc m.tool_name m) [] from rfl]
    rw [lookupKey_foldl_insertKey]
    cases lastRegistered cfg.mocks other <;> rfl

/-- Witness for C9: overwriting and duplicate-name construction on
concrete mocks sharing the name "d". -/
theorem c9_add_mock_witness :
    lookupKey (add_mock stOne mockD2).mocks "d" = some mockD2 ∧
    lookupKey (add_mock stOne mockD2).mocks "real" = lookupKey stOne.mocks "real" ∧
    lookupKey (ToolEmulator.init { mocks := [mockD1, mockD2] }).mocks "d" =
      lastRegistered [mockD1, mockD2] "d" :=
  ⟨(c9_add_mock stOne mockD2 "real" [] rng0 0 { mocks := [mockD1, mockD2] }).1,
   (c9_add_mock stOne mockD2 "real" [] rng0 0 { mocks := [mockD1, mockD2] }).2.1
     (by decide),
   (c9_add_mock stOne mockD2 "d" [] rng0 0 { mocks := [mockD1, mockD2] }).2.2.2.2.2.2⟩

/-- Claim C10: a fault-injected call and an `error`-policy call leave the
cursor map untouched, so the next non-injected sequential call sees the
same pool position as if the injected call had never happened; and no
selection ever changes another tool's cursor entry. -/
theorem c10_cursor_frame
    (st : EmulatorState) (tool_name : String) (mock : ToolMock)
    (input_data : Payload) (rng : Rng) (now : Nat) (other : String)
    (hm : lookupKey st.mocks tool_name = some mock) :
    (faultInjected mock rng →
      (selectResponse st mock input_data rng).2 = st.sequence_positions ∧
      (stepCall st tool_name input_data rng now).sequence_positions =
        st.sequence_positions) ∧
    (mock.behavior = .error → ¬ faultInjected mock rng →
      (selectResponse st mock input_data rng).2 = st.sequence_positions) ∧
    (other ≠ mock.tool_name →
      lookupKey (selectResponse st mock input_data rng).2 other =
        lookupKey st.sequence_positions other) := by
  refine ⟨?_, ?_, ?_⟩
  · intro h
    have hs := selectResponse_injected st mock input_data rng h
    refine ⟨by rw [hs], ?_⟩
    simp only [stepCall, call, hm, hs]
    split <;> rfl
  · intro hb hf
    have hf2 : ¬(mock.error_rate > 0 ∧ rng.draw < mock.error_rate) := hf
    unfold selectResponse
    rw [if_neg hf2, if_pos hb]
  · intro ho
    rcases selectResponse_cursor_cases st mock input_data rng with h | h
    · rw [h]
    · rw [h, lookupKey_insertKey_other _ _ _ _ ho]

/-- Witness for C10: the `error_rate = 1` sequential fixture with draw 0
is always injected and leaves the (empty) cursor map unchanged, also at
the foreign key "v"; the `error`-policy fixture does the same. -/
theorem c10_cursor_frame_witness :
    (selectResponse stW seqMockW [] rng0).2 = stW.sequence_positions ∧
    (stepCall stW "w" [] rng0 0).sequence_positions = stW.sequence_positions ∧
    (selectResponse stPriority errPolicyMock [] rng0).2 =
      stPriority.sequence_positions ∧
    lookupKey (selectResponse stW seqMockW [] rng0).2 "v" =
      lookupKey stW.sequence_positions "v" :=
  ⟨((c10_cursor_frame stW "w" seqMockW [] rng0 0 "v" rfl).1
      (by unfold faultInjected; decide)).1,
   ((c10_cursor_frame stW "w" seqMockW [] rng0 0 "v" rfl).1
      (by unfold faultInjected; decide)).2,
   (c10_cursor_frame stPriority "ep" errPolicyMock [] rng0 0 "v" rfl).2.1 rfl
      (by unfold faultInjected; decide),
   (c10_cursor_frame stW "w" seqMockW [] rng0 0 "v" rfl).2.2 (by decide)⟩

end AumaiToolemu
